import Mathlib

/-!
# Verification of the WanVideo step-caching ("TeaCache") core

Shallow embedding of `src/wanvideo/modules/model.py`, restricted to the
step-caching machinery the specification's claims are about:

* `poly1d`, `relative_l1_distance`, `rescale_differences` (module-level helpers);
* `TeaCacheState` (the Step Cache State Store, lines 763-803);
* the caching portion of `WanModel.forward` (lines 667-731), here
  `teacache_forward`.

Tensors are embedded as flat lists of rationals (`ℚ`), so that the means,
absolute values and thresholds of the decision logic are exact; the heavy
fixed-function tensor math (attention blocks, head, unpatchify) is out of
scope per the spec and enters only as an opaque function parameter
`runBlocks`.  Device placement (`.to(device)`, `cache_device`) does not
change any value and is not modeled.  Python run-time failures that the
control flow can reach (`KeyError` from indexing the empty dict returned by
`TeaCacheState.get`, `AttributeError` from calling `.to` on `None`,
`UnboundLocalError` from reading a never-assigned local) are embedded as an
`Except` error result.
-/

/-- A tensor, flattened to its list of scalar entries (exact rationals). -/
abbrev Tensor := List ℚ

/-- `torch.abs` (elementwise). -/
def tensor_abs (t : Tensor) : Tensor := t.map (fun v => |v|)

/-- Elementwise `a - b` (same-shape tensors). -/
def tensor_sub (a b : Tensor) : Tensor := List.zipWith (fun u v => u - v) a b

/-- Elementwise `a + b` (same-shape tensors); models `x += previous_residual`. -/
def tensor_add (a b : Tensor) : Tensor := List.zipWith (fun u v => u + v) a b

/-- `.mean()`: sum of entries over number of entries. -/
def tensor_mean (t : Tensor) : ℚ := t.sum / (t.length : ℚ)

/-- `model.py` lines 21-25: the module-level `poly1d` helper.
`result = Σ_i coeff_i * x^(len-1-i)`, then `result.abs()`.
(Note: `WanModel.forward` does *not* call this helper; it calls
`np.poly1d`, embedded below as `np_polyval`.) -/
def poly1d (coefficients : List ℚ) (x : ℚ) : ℚ :=
  |(coefficients.enum.foldl
      (fun result p => result + p.2 * x ^ (coefficients.length - 1 - p.1)) 0)|

/-- `np.poly1d(coefficients)(x)` / `np.polyval(coefficients, x)`: evaluation of
the polynomial with coefficients listed highest degree first (Horner form,
no absolute value). -/
def np_polyval (coefficients : List ℚ) (x : ℚ) : ℚ :=
  coefficients.foldl (fun acc c => acc * x + c) 0

/-- `model.py` lines 805-809: `relative_l1_distance(last_tensor, current_tensor)`.
`l1_distance = |last - current|.mean()`; `norm = |last|.mean()`; result is
`l1_distance / norm`.  (dtype/device conversions dropped: value-preserving.) -/
def relative_l1_distance (last_tensor current_tensor : Tensor) : ℚ :=
  let l1_distance := tensor_mean (tensor_abs (tensor_sub last_tensor current_tensor))
  let norm := tensor_mean (tensor_abs last_tensor)
  l1_distance / norm

/-- One prediction session, `model.py` lines 773-778: the value stored in
`TeaCacheState.states[pred_id]`.  `none` models Python `None`. -/
structure TeaCacheSession where
  previous_residual : Option Tensor
  accumulated_rel_l1_distance : ℚ
  previous_modulated_input : Option Tensor
  skipped_steps : ℕ

/-- The fresh session created by `new_prediction` (lines 773-778). -/
def freshSession : TeaCacheSession :=
  { previous_residual := none
    accumulated_rel_l1_distance := 0
    previous_modulated_input := none
    skipped_steps := 0 }

/-- The keyword arguments of one `TeaCacheState.update` call: each field is
`some v` when the corresponding kwarg is passed, `none` when it is not.
(The spec's design note asks for exactly this explicit partial-update
structure in place of Python's open `**kwargs` bag.) -/
structure SessionUpdate where
  previous_residual : Option Tensor
  accumulated_rel_l1_distance : Option ℚ
  previous_modulated_input : Option Tensor
  skipped_steps : Option ℕ

/-- Merge the provided fields of `u` into session `s` (the `for key, value in
kwargs.items(): states[pred_id][key] = value` loop; the `.to(cache_device)`
move is value-preserving and not modeled). -/
def applySessionUpdate (u : SessionUpdate) (s : TeaCacheSession) : TeaCacheSession :=
  { previous_residual :=
      match u.previous_residual with
      | none => s.previous_residual
      | some t => some t
    accumulated_rel_l1_distance :=
      u.accumulated_rel_l1_distance.getD s.accumulated_rel_l1_distance
    previous_modulated_input :=
      match u.previous_modulated_input with
      | none => s.previous_modulated_input
      | some t => some t
    skipped_steps := u.skipped_steps.getD s.skipped_steps }

/-- `model.py` lines 763-767: the Step Cache State Store.  The Python dict
`self.states` is embedded as a partial map from prediction id to session;
`self._next_pred_id` as `next_pred_id`.  (`cache_device` only affects
placement, not values.) -/
structure TeaCacheState where
  states : ℕ → Option TeaCacheSession
  next_pred_id : ℕ

/-- `TeaCacheState.__init__`: empty table, id counter at 0. -/
def TeaCacheState.init : TeaCacheState :=
  { states := fun _ => none, next_pred_id := 0 }

/-- Lines 769-779: `new_prediction` — allocate `pred_id = self._next_pred_id`,
increment the counter, store a fresh all-empty session, return the id.
Total (never fails). -/
def TeaCacheState.new_prediction (st : TeaCacheState) : ℕ × TeaCacheState :=
  (st.next_pred_id,
   { states := fun i => if i = st.next_pred_id then some freshSession else st.states i
     next_pred_id := st.next_pred_id + 1 })

/-- Lines 781-788: `update(pred_id, **kwargs)` — `if pred_id not in
self.states: return None` (silent no-op), else merge the provided fields. -/
def TeaCacheState.update (st : TeaCacheState) (pred_id : ℕ) (u : SessionUpdate) :
    TeaCacheState :=
  match st.states pred_id with
  | none => st
  | some s =>
      { st with states := fun i => if i = pred_id then some (applySessionUpdate u s)
                                   else st.states i }

/-- Lines 790-791: `get(pred_id)` — `self.states.get(pred_id, {})`.  `none`
models the empty dict default; the lookup itself never raises. -/
def TeaCacheState.get (st : TeaCacheState) (pred_id : ℕ) : Option TeaCacheSession :=
  st.states pred_id

/-- Lines 797-799: `clear_prediction(pred_id)` — delete only when present. -/
def TeaCacheState.clear_prediction (st : TeaCacheState) (pred_id : ℕ) : TeaCacheState :=
  match st.states pred_id with
  | none => st
  | some _ =>
      { st with states := fun i => if i = pred_id then none else st.states i }

/-- Lines 801-803: `clear_all()` — drop every session and reset the id
counter to 0. -/
def TeaCacheState.clear_all (_st : TeaCacheState) : TeaCacheState :=
  { states := fun _ => none, next_pred_id := 0 }

/-- The model-wide cache configuration attributes `WanModel.forward` reads
(the spec's CacheConfig). -/
structure WanModel where
  enable_teacache : Bool
  teacache_start_step : ℕ
  teacache_end_step : ℕ
  teacache_use_coefficients : Bool
  teacache_coefficients : List ℚ
  rel_l1_thresh : ℚ

/-- Lines 681-686: the per-step distance added to
`accumulated_rel_l1_distance`.  In calibrated mode (`teacache_use_coefficients`)
it is `np.poly1d(coefficients)` applied to the raw relative distance of the
time embedding `e` against the stored snapshot (line 683); in raw mode it is
`relative_l1_distance(previous_modulated_input, e0)` on the projected
modulation `e0` (line 685). -/
def step_distance (m : WanModel) (previous_modulated_input e e0 : Tensor) : ℚ :=
  if m.teacache_use_coefficients then
    np_polyval m.teacache_coefficients
      (tensor_mean (tensor_abs (tensor_sub e previous_modulated_input)) /
        tensor_mean (tensor_abs previous_modulated_input))
  else
    relative_l1_distance previous_modulated_input e0

/-- The Python run-time errors reachable from the caching control flow. -/
inductive PyErr where
  /-- `{}['previous_modulated_input']` on the empty-dict default of `get`
  (line 676 with a stale `pred_id`). -/
  | keyError
  /-- `None.to(device)` (line 677) or `None.to(x.device)` (line 698) when a
  session field that is still `None` is used as a tensor. -/
  | attributeError
  /-- line 730: `previous_modulated_input` read although neither line 676 nor
  line 696 executed (caching enabled, step outside the active range,
  `pred_id is not None`). -/
  | unboundLocalError

/-- `model.py` lines 667-731: the step-caching portion of `WanModel.forward`.

Inputs: the config attributes `m`, the transformer block stack as an opaque
function `runBlocks` (the `for block in self.blocks` loop, lines 718-723),
the Store, `current_step`, the optional `pred_id`, the time embedding `e`,
the projected modulation `e0`, and the block-stack input `x`.

Output: `(x', pred_id', store')` — the block-stack output (either computed
or substituted from cache; the subsequent `head`/`unpatchify` are external
fixed-function math), the session id returned to the caller, and the updated
Store — or the Python error the call raises. -/
def teacache_forward (m : WanModel) (runBlocks : Tensor → Tensor)
    (state : TeaCacheState) (current_step : ℕ) (pred_id : Option ℕ)
    (e e0 x : Tensor) : Except PyErr (Tensor × Option ℕ × TeaCacheState) :=
  if m.enable_teacache = true ∧ m.teacache_start_step ≤ current_step ∧
      current_step ≤ m.teacache_end_step then
    match pred_id with
    | none =>
        -- lines 670-674: allocate a session, should_calc = True; then the
        -- compute branch (706-731) runs the blocks and, since pred_id is now
        -- not None, stores residual, accumulated distance (still the 0.0 of
        -- line 668) and the line-696 snapshot.
        match state.new_prediction with
        | (pid, state1) =>
            let x1 := runBlocks x
            Except.ok (x1, some pid,
              state1.update pid
                { previous_residual := some (tensor_sub x1 x)
                  accumulated_rel_l1_distance := some 0
                  previous_modulated_input :=
                    some (if m.teacache_use_coefficients then e else e0)
                  skipped_steps := none })
    | some pid =>
        match state.get pid with
        | none =>
            -- line 676: get returned {}, and {}['previous_modulated_input']
            -- raises.
            Except.error PyErr.keyError
        | some sess =>
            match sess.previous_modulated_input with
            | none =>
                -- line 677: previous_modulated_input is None; None.to(device)
                -- raises.
                Except.error PyErr.attributeError
            | some prev =>
                -- lines 678-686: read residual and accumulated distance, add
                -- this step's estimator distance.
                let acc := sess.accumulated_rel_l1_distance + step_distance m prev e e0
                if acc < m.rel_l1_thresh then
                  -- lines 690-691, 697-704: should_calc = False.  (The
                  -- line-696 snapshot is still taken but is dead here: the
                  -- skip-branch update does not pass it.)
                  match sess.previous_residual with
                  | none => Except.error PyErr.attributeError
                  | some r =>
                      Except.ok (tensor_add x r, some pid,
                        state.update pid
                          { previous_residual := none
                            accumulated_rel_l1_distance := some acc
                            previous_modulated_input := none
                            skipped_steps := some (sess.skipped_steps + 1) })
                else
                  -- lines 692-694: should_calc = True, accumulated reset to 0;
                  -- lines 706-731: run the blocks, store residual, reset
                  -- accumulated distance, and the line-696 snapshot.
                  let x1 := runBlocks x
                  Except.ok (x1, some pid,
                    state.update pid
                      { previous_residual := some (tensor_sub x1 x)
                        accumulated_rel_l1_distance := some 0
                        previous_modulated_input :=
                          some (if m.teacache_use_coefficients then e else e0)
                        skipped_steps := none })
  else
    -- caching disabled or step outside [start, end]: should_calc keeps its
    -- line-667 value True, so lines 706-723 always run the blocks.
    let x1 := runBlocks x
    if m.enable_teacache = true ∧ pred_id.isSome then
      -- line 725's guard does not re-check the step range, and line 730 then
      -- reads the local previous_modulated_input, which no statement on this
      -- path ever assigned.
      Except.error PyErr.unboundLocalError
    else
      Except.ok (x1, pred_id, state)

/-- `model.py` lines 818-833: `rescale_differences(input_diffs, output_diffs)`
with `poly_degree = 4`.  `np.polyfit` belongs to numpy (an external
collaborator), so it enters as the parameter `np_polyfit`; its least-squares
contract is stated separately as `IsLeastSquaresFit`.  Fewer than 2 samples:
return the input unchanged; otherwise return
`np.polyval(np.polyfit(x, y, 4), x)`. -/
def rescale_differences (np_polyfit : List ℚ → List ℚ → ℕ → List ℚ)
    (input_diffs output_diffs : List ℚ) : List ℚ :=
  if input_diffs.length < 2 then input_diffs
  else
    let coeffs := np_polyfit input_diffs output_diffs 4
    input_diffs.map (np_polyval coeffs)

/-- Residual sum of squares of the polynomial `coeffs` (highest degree first)
against the sample pairs `zip xs ys`. -/
def rss (coeffs : List ℚ) (xs ys : List ℚ) : ℚ :=
  ((xs.zip ys).map (fun p => (np_polyval coeffs p.1 - p.2) ^ 2)).sum

/-- `coeffs` is a least-squares degree-`deg` fit of `ys` against `xs`:
it has `deg + 1` coefficients and no other coefficient list of that length
achieves a smaller residual sum of squares.  This is `np.polyfit`'s
documented contract. -/
def IsLeastSquaresFit (deg : ℕ) (coeffs : List ℚ) (xs ys : List ℚ) : Prop :=
  coeffs.length = deg + 1 ∧
  ∀ c, c.length = deg + 1 → rss coeffs xs ys ≤ rss c xs ys

/-! ## Concrete fixtures

Closed configurations, sessions and stores used to evaluate the definitions
on concrete inputs (raw mode uses threshold `3/20 = 0.15`, the spec's running
example). -/

/-- Raw-mode config: caching enabled, active range `[0, 10]`,
`rel_l1_thresh = 0.15`. -/
def mRaw : WanModel :=
  { enable_teacache := true
    teacache_start_step := 0
    teacache_end_step := 10
    teacache_use_coefficients := false
    teacache_coefficients := []
    rel_l1_thresh := 3/20 }

/-- Raw-mode config whose active range `[0, 3]` excludes step 5. -/
def mRawShort : WanModel :=
  { enable_teacache := true
    teacache_start_step := 0
    teacache_end_step := 3
    teacache_use_coefficients := false
    teacache_coefficients := []
    rel_l1_thresh := 3/20 }

/-- Calibrated-mode config with the (legal, non-empty) coefficient list
`[-1, 0, 0, 0, 0]`, i.e. the degree-4 polynomial `-x^4`. -/
def mCal : WanModel :=
  { enable_teacache := true
    teacache_start_step := 0
    teacache_end_step := 10
    teacache_use_coefficients := true
    teacache_coefficients := [-1, 0, 0, 0, 0]
    rel_l1_thresh := 3/20 }

/-- A session that has computed at least once: residual `[5]`, accumulated
distance 0, stored modulation snapshot `[1]`, no skips yet. -/
def sessA : TeaCacheSession :=
  { previous_residual := some [5]
    accumulated_rel_l1_distance := 0
    previous_modulated_input := some [1]
    skipped_steps := 0 }

/-- A store holding exactly `sessA` under id 0. -/
def storeA : TeaCacheState :=
  { states := fun i => if i = 0 then some sessA else none
    next_pred_id := 1 }

/-- `sessA` after one skipped step of distance `0.08 = 2/25`: accumulated
distance carried at `2/25`, one skip recorded, residual and stored
modulation untouched. -/
def sessB : TeaCacheSession :=
  { previous_residual := some [5]
    accumulated_rel_l1_distance := 2/25
    previous_modulated_input := some [1]
    skipped_steps := 1 }

/-- The store after that first skipped step on `storeA`. -/
def storeB : TeaCacheState :=
  storeA.update 0 ⟨none, some (2/25), none, some 1⟩

/-- The store after a subsequent computed step (with `runBlocks = id` and
input `[10]`, so the stored residual is `[10 - 10]`) whose raw-mode snapshot
was `[91/100]`. -/
def storeC : TeaCacheState :=
  storeB.update 0 ⟨some (tensor_sub [10] [10]), some 0, some [91/100], none⟩

/-- A stand-in for `np.polyfit` used on the sample set `xs = ys = [0, 1]`:
it returns the degree-4 coefficient list of the identity polynomial `x`,
which interpolates those samples exactly. -/
def fitIdentity : List ℚ → List ℚ → ℕ → List ℚ :=
  fun _ _ _ => [0, 0, 0, 1, 0]

/-! ## Store lemmas -/

/-- Updating an existing session rewrites exactly the provided fields. -/
theorem TeaCacheState.get_update_self (st : TeaCacheState) (pid : ℕ) (u : SessionUpdate)
    (s : TeaCacheSession) (h : st.get pid = some s) :
    (st.update pid u).get pid = some (applySessionUpdate u s) := by
  unfold TeaCacheState.get at h
  unfold TeaCacheState.update TeaCacheState.get
  rw [h]
  simp

/-- Updating one session leaves every other id's entry unchanged. -/
theorem TeaCacheState.get_update_other (st : TeaCacheState) (pid q : ℕ) (u : SessionUpdate)
    (hq : q ≠ pid) : (st.update pid u).get q = st.get q := by
  unfold TeaCacheState.update TeaCacheState.get
  cases hst : st.states pid <;> simp [hq]

/-! ## Branch lemmas for `teacache_forward` -/

/-- In-range call on an existing session whose accumulated distance (after
adding this step's estimator distance) stays below the threshold: the skip
branch, lines 690-691 and 697-704. -/
theorem teacache_forward_skip (m : WanModel) (runBlocks : Tensor → Tensor)
    (state : TeaCacheState) (current_step : ℕ) (pid : ℕ)
    (sess : TeaCacheSession) (prev r e e0 x : Tensor)
    (hen : m.enable_teacache = true)
    (hlo : m.teacache_start_step ≤ current_step)
    (hhi : current_step ≤ m.teacache_end_step)
    (hget : state.get pid = some sess)
    (hprev : sess.previous_modulated_input = some prev)
    (hres : sess.previous_residual = some r)
    (hlt : sess.accumulated_rel_l1_distance + step_distance m prev e e0 <
      m.rel_l1_thresh) :
    teacache_forward m runBlocks state current_step (some pid) e e0 x =
      Except.ok (tensor_add x r, some pid,
        state.update pid
          { previous_residual := none
            accumulated_rel_l1_distance :=
              some (sess.accumulated_rel_l1_distance + step_distance m prev e e0)
            previous_modulated_input := none
            skipped_steps := some (sess.skipped_steps + 1) }) := by
  unfold teacache_forward
  rw [if_pos ⟨hen, hlo, hhi⟩]
  simp only [hget, hprev, hres]
  rw [if_pos hlt]

/-- In-range call on an existing session whose accumulated distance (after
adding this step's estimator distance) reaches the threshold: the compute
branch, lines 692-694 and 706-731. -/
theorem teacache_forward_compute (m : WanModel) (runBlocks : Tensor → Tensor)
    (state : TeaCacheState) (current_step : ℕ) (pid : ℕ)
    (sess : TeaCacheSession) (prev e e0 x : Tensor)
    (hen : m.enable_teacache = true)
    (hlo : m.teacache_start_step ≤ current_step)
    (hhi : current_step ≤ m.teacache_end_step)
    (hget : state.get pid = some sess)
    (hprev : sess.previous_modulated_input = some prev)
    (hge : ¬ sess.accumulated_rel_l1_distance + step_distance m prev e e0 <
      m.rel_l1_thresh) :
    teacache_forward m runBlocks state current_step (some pid) e e0 x =
      Except.ok (runBlocks x, some pid,
        state.update pid
          { previous_residual := some (tensor_sub (runBlocks x) x)
            accumulated_rel_l1_distance := some 0
            previous_modulated_input :=
              some (if m.teacache_use_coefficients then e else e0)
            skipped_steps := none }) := by
  unfold teacache_forward
  rw [if_pos ⟨hen, hlo, hhi⟩]
  simp only [hget, hprev]
  rw [if_neg hge]

/-- In-range call with `pred_id = None`: lines 670-674 allocate a fresh
session and the compute branch then stores its first residual and snapshot. -/
theorem teacache_forward_fresh (m : WanModel) (runBlocks : Tensor → Tensor)
    (state : TeaCacheState) (current_step : ℕ) (e e0 x : Tensor)
    (hen : m.enable_teacache = true)
    (hlo : m.teacache_start_step ≤ current_step)
    (hhi : current_step ≤ m.teacache_end_step) :
    teacache_forward m runBlocks state current_step none e e0 x =
      Except.ok (runBlocks x, some state.next_pred_id,
        (state.new_prediction).2.update state.next_pred_id
          { previous_residual := some (tensor_sub (runBlocks x) x)
            accumulated_rel_l1_distance := some 0
            previous_modulated_input :=
              some (if m.teacache_use_coefficients then e else e0)
            skipped_steps := none }) := by
  unfold teacache_forward
  rw [if_pos ⟨hen, hlo, hhi⟩]
  rfl

/-! ## Claim theorems: the Store (C7, C8) -/

/-- C7: the Store assigns session ids starting at 0 and incrementing by 1 on
each `new_prediction` (which always succeeds — it is total — and initializes
all cached fields empty/zero), and after `clear_all` the id counter is reset
so that the next `new_prediction` returns 0. -/
theorem store_id_assignment (s : TeaCacheState) :
    TeaCacheState.init.next_pred_id = 0 ∧
    (s.new_prediction).1 = s.next_pred_id ∧
    (s.new_prediction).2.next_pred_id = s.next_pred_id + 1 ∧
    (s.new_prediction).2.get (s.new_prediction).1 = some freshSession ∧
    freshSession.previous_residual = none ∧
    freshSession.accumulated_rel_l1_distance = 0 ∧
    freshSession.previous_modulated_input = none ∧
    freshSession.skipped_steps = 0 ∧
    ((s.clear_all).new_prediction).1 = 0 := by
  refine ⟨rfl, rfl, rfl, ?_, rfl, rfl, rfl, rfl, rfl⟩
  simp [TeaCacheState.new_prediction, TeaCacheState.get]

/-- C8: for a session id absent from the Store, `update` is a silent no-op
leaving the Store unchanged, `get` returns the empty default (`none`, the
Python `{}`) — it is a total function, so it never raises — and
`clear_prediction` also returns the Store unchanged. -/
theorem store_unknown_id_tolerance (s : TeaCacheState) (pid : ℕ) (u : SessionUpdate)
    (h : s.get pid = none) :
    s.update pid u = s ∧ s.get pid = none ∧ s.clear_prediction pid = s := by
  unfold TeaCacheState.get at h
  refine ⟨?_, h, ?_⟩
  · unfold TeaCacheState.update
    rw [h]
  · unfold TeaCacheState.clear_prediction
    rw [h]

/-- Witness for C8 at the concrete store `storeA` and the absent id 3. -/
theorem store_unknown_id_tolerance_witness :
    storeA.get 3 = none ∧
    storeA.update 3 ⟨none, some 1, none, none⟩ = storeA ∧
    storeA.clear_prediction 3 = storeA := by
  have h := store_unknown_id_tolerance storeA 3 ⟨none, some 1, none, none⟩ rfl
  exact ⟨rfl, h.1, h.2.2⟩

/-! ## Claim theorems: error paths of the Controller (C1, C2) -/

/-- C1 (code divergence): caching enabled, step 5 outside the active range
`[0, 3]` of `mRawShort`.  Without a session id the call computes (`runBlocks
= id` returns the input) and leaves the Store untouched, as the claim says;
but when a session id is passed — even one naming a live session — the call
raises `UnboundLocalError` instead of completing: line 725's guard checks
only `enable_teacache and pred_id is not None`, and line 730 then reads the
local `previous_modulated_input`, which is assigned only inside the in-range
branch (lines 676/696). -/
theorem out_of_range_with_session_crashes :
    (teacache_forward mRawShort id TeaCacheState.init 5 none [1] [1] [1] =
      Except.ok ([1], none, TeaCacheState.init)) ∧
    (teacache_forward mRawShort id storeA 5 (some 0) [1] [1] [1] =
      Except.error PyErr.unboundLocalError) :=
  ⟨rfl, rfl⟩

/-- C2 (amended): with caching enabled, an in-range step and a session id
absent from the Store, the Store's `get` does return its empty default — but
the Controller then raises `KeyError` reading `previous_modulated_input`
from that empty record (line 676), so the call does *not* complete. -/
theorem stale_id_raises_keyerror (m : WanModel) (runBlocks : Tensor → Tensor)
    (state : TeaCacheState) (current_step pid : ℕ) (e e0 x : Tensor)
    (hen : m.enable_teacache = true)
    (hlo : m.teacache_start_step ≤ current_step)
    (hhi : current_step ≤ m.teacache_end_step)
    (hget : state.get pid = none) :
    teacache_forward m runBlocks state current_step (some pid) e e0 x =
      Except.error PyErr.keyError := by
  unfold teacache_forward
  rw [if_pos ⟨hen, hlo, hhi⟩]
  simp only [hget]

/-- Witness for C2 (amended) at a concrete stale id against the empty store. -/
theorem stale_id_raises_keyerror_witness :
    TeaCacheState.init.get 0 = none ∧
    teacache_forward mRaw id TeaCacheState.init 1 (some 0) [1] [1] [1] =
      Except.error PyErr.keyError :=
  ⟨rfl, stale_id_raises_keyerror mRaw id TeaCacheState.init 1 0 [1] [1] [1] rfl
    (by decide) (by decide) rfl⟩

/-- C2 counterexample to the claim as stated: at a concrete in-range call
(step 2, enabled config `mRaw`) with the stale session id 7, the call does
not complete — it raises `KeyError`. -/
theorem stale_id_completes_counterexample :
    teacache_forward mRaw id TeaCacheState.init 2 (some 7) [1] [2] [3] =
      Except.error PyErr.keyError :=
  rfl

/-! ## Claim theorems: the Similarity Estimator (C5, C6) -/

/-- The mean of elementwise absolute values is never negative. -/
theorem tensor_mean_abs_nonneg (t : Tensor) : 0 ≤ tensor_mean (tensor_abs t) := by
  unfold tensor_mean tensor_abs
  apply div_nonneg
  · apply List.sum_nonneg
    intro a ha
    obtain ⟨b, _, rfl⟩ := List.mem_map.mp ha
    exact abs_nonneg b
  · exact Nat.cast_nonneg _

/-- C5: in raw mode, for previous/current tensors with `mean(|prev|)` nonzero,
the estimator's distance satisfies `distance * mean(|prev|) =
mean(|prev - curr|)`, i.e. it equals `mean(|prev - curr|) / mean(|prev|)`;
and at stored previous modulation `[2, -2]` (mean magnitude 2) against
current `[2.1, -1.9]` (mean absolute difference 0.1) the distance is 0.05. -/
theorem raw_estimator_formula (prev curr : Tensor)
    (h : tensor_mean (tensor_abs prev) ≠ 0) :
    relative_l1_distance prev curr * tensor_mean (tensor_abs prev) =
      tensor_mean (tensor_abs (tensor_sub prev curr)) ∧
    relative_l1_distance [2, -2] [21/10, -19/10] = 1/20 := by
  constructor
  · unfold relative_l1_distance
    exact div_mul_cancel₀ _ h
  · norm_num [relative_l1_distance, tensor_mean, tensor_abs, tensor_sub, abs_of_pos]

/-- Witness for C5 at `prev = [2, -2]`, `curr = [2.1, -1.9]`. -/
theorem raw_estimator_formula_witness :
    tensor_mean (tensor_abs [2, -2]) ≠ 0 ∧
    relative_l1_distance [2, -2] [21/10, -19/10] = 1/20 :=
  ⟨by norm_num [tensor_mean, tensor_abs],
   (raw_estimator_formula [2, -2] [21/10, -19/10]
     (by norm_num [tensor_mean, tensor_abs])).2⟩

/-- C6 (amended): in raw mode (the `relative_l1_distance` path of the
estimator) the distance is non-negative whenever the stored previous signal
has positive mean magnitude.  (Calibrated mode does not share this bound:
see the counterexample `calibrated_estimator_negative`.) -/
theorem raw_estimator_nonneg (m : WanModel) (prev e e0 : Tensor)
    (hm : m.teacache_use_coefficients = false)
    (h : 0 < tensor_mean (tensor_abs prev)) :
    0 ≤ step_distance m prev e e0 := by
  unfold step_distance
  simp only [hm, Bool.false_eq_true, if_false]
  unfold relative_l1_distance
  exact div_nonneg (tensor_mean_abs_nonneg _) h.le

/-- Witness for C6 (amended) at the raw-mode config `mRaw`. -/
theorem raw_estimator_nonneg_witness :
    mRaw.teacache_use_coefficients = false ∧
    (0 : ℚ) < tensor_mean (tensor_abs [2, -2]) ∧
    0 ≤ step_distance mRaw [2, -2] [1] [21/10, -19/10] :=
  ⟨rfl, by norm_num [tensor_mean, tensor_abs],
   raw_estimator_nonneg mRaw [2, -2] [1] [21/10, -19/10] rfl
     (by norm_num [tensor_mean, tensor_abs])⟩

/-- C6 counterexample to the claim as stated: the forward pass's calibrated
mode evaluates `np.poly1d` with no absolute value (line 683 uses numpy's
`poly1d`, not the module's own abs-taking `poly1d` helper, which is dead
code), so with the legal coefficient list `[-1, 0, 0, 0, 0]` the estimator's
distance at previous signal `[2]` and current time embedding `[4]` is
`-1 < 0`: not non-negative. -/
theorem calibrated_estimator_negative :
    step_distance mCal [2] [4] [0] < 0 := by
  norm_num [step_distance, mCal, np_polyval, tensor_mean, tensor_abs, tensor_sub]

/-! ## Claim theorems: the Controller's accumulate/skip/compute logic
(C3, C4, C10) -/

/-- C3: on an in-range step against an existing session (stored modulation
`prev`, stored residual `r`), the step's estimator distance is added to the
session's accumulated distance.  If the sum stays strictly below the
threshold the step is skipped and the sum — including this step's distance —
is carried forward unreset; otherwise the step computes and the stored
accumulated distance is reset to 0. -/
theorem accumulation_and_reset (m : WanModel) (runBlocks : Tensor → Tensor)
    (state : TeaCacheState) (current_step pid : ℕ) (sess : TeaCacheSession)
    (prev r e e0 x : Tensor)
    (hen : m.enable_teacache = true)
    (hlo : m.teacache_start_step ≤ current_step)
    (hhi : current_step ≤ m.teacache_end_step)
    (hget : state.get pid = some sess)
    (hprev : sess.previous_modulated_input = some prev)
    (hres : sess.previous_residual = some r)
    (out : Tensor) (pid1 : Option ℕ) (state1 : TeaCacheState)
    (heq : teacache_forward m runBlocks state current_step (some pid) e e0 x =
      Except.ok (out, pid1, state1)) :
    (sess.accumulated_rel_l1_distance + step_distance m prev e e0 < m.rel_l1_thresh →
      out = tensor_add x r ∧
      state1.get pid = some
        ⟨sess.previous_residual,
         sess.accumulated_rel_l1_distance + step_distance m prev e e0,
         sess.previous_modulated_input,
         sess.skipped_steps + 1⟩) ∧
    (¬ sess.accumulated_rel_l1_distance + step_distance m prev e e0 < m.rel_l1_thresh →
      out = runBlocks x ∧
      state1.get pid = some
        ⟨some (tensor_sub (runBlocks x) x),
         0,
         some (if m.teacache_use_coefficients then e else e0),
         sess.skipped_steps⟩) := by
  by_cases hlt : sess.accumulated_rel_l1_distance + step_distance m prev e e0 <
      m.rel_l1_thresh
  · rw [teacache_forward_skip m runBlocks state current_step pid sess prev r e e0 x
      hen hlo hhi hget hprev hres hlt] at heq
    simp only [Except.ok.injEq, Prod.mk.injEq] at heq
    obtain ⟨hout, _, hst⟩ := heq
    refine ⟨fun _ => ⟨hout.symm, ?_⟩, fun hc => absurd hlt hc⟩
    rw [← hst, TeaCacheState.get_update_self state pid _ sess hget]
    rfl
  · rw [teacache_forward_compute m runBlocks state current_step pid sess prev e e0 x
      hen hlo hhi hget hprev hlt] at heq
    simp only [Except.ok.injEq, Prod.mk.injEq] at heq
    obtain ⟨hout, _, hst⟩ := heq
    refine ⟨fun hc => absurd hc hlt, fun _ => ⟨hout.symm, ?_⟩⟩
    rw [← hst, TeaCacheState.get_update_self state pid _ sess hget]
    rfl

/-- C4: on a skipped step the block-stack output is the unchanged input plus
the session's stored residual (`x += previous_residual`, line 698 — added,
not substituted), the returned id is the same session id, the session's
`skipped_steps` is incremented by exactly 1, and the accumulated distance
(including this step's contribution) is written back through `update`. -/
theorem skip_step_effects (m : WanModel) (runBlocks : Tensor → Tensor)
    (state : TeaCacheState) (current_step pid : ℕ) (sess : TeaCacheSession)
    (prev r e e0 x : Tensor)
    (hen : m.enable_teacache = true)
    (hlo : m.teacache_start_step ≤ current_step)
    (hhi : current_step ≤ m.teacache_end_step)
    (hget : state.get pid = some sess)
    (hprev : sess.previous_modulated_input = some prev)
    (hres : sess.previous_residual = some r)
    (hlt : sess.accumulated_rel_l1_distance + step_distance m prev e e0 <
      m.rel_l1_thresh)
    (out : Tensor) (pid1 : Option ℕ) (state1 : TeaCacheState)
    (heq : teacache_forward m runBlocks state current_step (some pid) e e0 x =
      Except.ok (out, pid1, state1)) :
    out = tensor_add x r ∧
    pid1 = some pid ∧
    state1 = state.update pid
      ⟨none, some (sess.accumulated_rel_l1_distance + step_distance m prev e e0),
       none, some (sess.skipped_steps + 1)⟩ ∧
    state1.get pid = some
      ⟨sess.previous_residual,
       sess.accumulated_rel_l1_distance + step_distance m prev e e0,
       sess.previous_modulated_input,
       sess.skipped_steps + 1⟩ := by
  rw [teacache_forward_skip m runBlocks state current_step pid sess prev r e e0 x
    hen hlo hhi hget hprev hres hlt] at heq
  simp only [Except.ok.injEq, Prod.mk.injEq] at heq
  obtain ⟨hout, hpid, hst⟩ := heq
  refine ⟨hout.symm, hpid.symm, hst.symm, ?_⟩
  rw [← hst, TeaCacheState.get_update_self state pid _ sess hget]
  rfl

/-- C10: the stored `previous_modulated_input` and `previous_residual` are
written only on computed steps.  A skipped step leaves both fields exactly as
they were, so `previous_modulated_input` keeps the modulation signal of the
most recent computed step; a computed step stores the snapshot of the current
modulation signal taken before the update (line 696: `e` in calibrated mode,
`e0` in raw mode) together with the fresh residual. -/
theorem snapshot_write_policy (m : WanModel) (runBlocks : Tensor → Tensor)
    (state : TeaCacheState) (current_step pid : ℕ) (sess : TeaCacheSession)
    (prev r e e0 x : Tensor)
    (hen : m.enable_teacache = true)
    (hlo : m.teacache_start_step ≤ current_step)
    (hhi : current_step ≤ m.teacache_end_step)
    (hget : state.get pid = some sess)
    (hprev : sess.previous_modulated_input = some prev)
    (hres : sess.previous_residual = some r)
    (out : Tensor) (pid1 : Option ℕ) (state1 : TeaCacheState)
    (heq : teacache_forward m runBlocks state current_step (some pid) e e0 x =
      Except.ok (out, pid1, state1))
    (sess1 : TeaCacheSession)
    (hget1 : state1.get pid = some sess1) :
    (sess.accumulated_rel_l1_distance + step_distance m prev e e0 < m.rel_l1_thresh →
      sess1.previous_modulated_input = sess.previous_modulated_input ∧
      sess1.previous_residual = sess.previous_residual) ∧
    (¬ sess.accumulated_rel_l1_distance + step_distance m prev e e0 < m.rel_l1_thresh →
      sess1.previous_modulated_input =
        some (if m.teacache_use_coefficients then e else e0) ∧
      sess1.previous_residual = some (tensor_sub (runBlocks x) x)) := by
  by_cases hlt : sess.accumulated_rel_l1_distance + step_distance m prev e e0 <
      m.rel_l1_thresh
  · rw [teacache_forward_skip m runBlocks state current_step pid sess prev r e e0 x
      hen hlo hhi hget hprev hres hlt] at heq
    simp only [Except.ok.injEq, Prod.mk.injEq] at heq
    obtain ⟨_, _, hst⟩ := heq
    rw [← hst, TeaCacheState.get_update_self state pid _ sess hget] at hget1
    injection hget1 with h1
    subst h1
    exact ⟨fun _ => ⟨rfl, rfl⟩, fun hc => absurd hlt hc⟩
  · rw [teacache_forward_compute m runBlocks state current_step pid sess prev e e0 x
      hen hlo hhi hget hprev hlt] at heq
    simp only [Except.ok.injEq, Prod.mk.injEq] at heq
    obtain ⟨_, _, hst⟩ := heq
    rw [← hst, TeaCacheState.get_update_self state pid _ sess hget] at hget1
    injection hget1 with h1
    subst h1
    exact ⟨fun hc => absurd hc hlt, fun _ => ⟨rfl, rfl⟩⟩

/-! ## Claim theorem: offline calibration (C9) -/

/-- A residual sum of squares is never negative. -/
theorem rss_nonneg (coeffs xs ys : List ℚ) : 0 ≤ rss coeffs xs ys := by
  unfold rss
  apply List.sum_nonneg
  intro a ha
  obtain ⟨p, _, rfl⟩ := List.mem_map.mp ha
  positivity

/-- C9: with fewer than 2 samples `rescale_differences` returns the input
sequence unchanged; with `n ≥ 2` samples it returns the degree-4 fit
(`np.polyfit`, an external numpy routine modeled by the parameter
`np_polyfit` together with its least-squares contract `IsLeastSquaresFit`)
evaluated at the input points. -/
theorem rescale_differences_fit (np_polyfit : List ℚ → List ℚ → ℕ → List ℚ)
    (xs ys : List ℚ)
    (hfit : IsLeastSquaresFit 4 (np_polyfit xs ys 4) xs ys) :
    (xs.length < 2 → rescale_differences np_polyfit xs ys = xs) ∧
    (2 ≤ xs.length →
      rescale_differences np_polyfit xs ys =
        xs.map (np_polyval (np_polyfit xs ys 4)) ∧
      IsLeastSquaresFit 4 (np_polyfit xs ys 4) xs ys) := by
  constructor
  · intro h
    unfold rescale_differences
    rw [if_pos h]
  · intro h
    refine ⟨?_, hfit⟩
    unfold rescale_differences
    rw [if_neg (by omega)]

/-! ## Witnesses for the Controller claims -/

/-- Witness for C3: the spec's scenario C.  Threshold `0.15`; two consecutive
steps of raw distances `0.08` and `0.09` against the stored modulation `[1]`.
The first accumulates `0 + 0.08 = 0.08 < 0.15` and skips, carrying `0.08`
forward; the second accumulates `0.08 + 0.09 = 0.17 ≥ 0.15` and computes,
resetting the stored accumulated distance to 0. -/
theorem accumulation_and_reset_witness :
    step_distance mRaw [1] [1] [23/25] = 2/25 ∧
    ((0 : ℚ) + 2/25 < 3/20) ∧
    teacache_forward mRaw id storeA 1 (some 0) [1] [23/25] [10] =
      Except.ok (tensor_add [10] [5], some 0, storeB) ∧
    storeB.get 0 = some sessB ∧
    step_distance mRaw [1] [1] [91/100] = 9/100 ∧
    ((2/25 : ℚ) + 9/100 = 17/100) ∧
    ¬((17/100 : ℚ) < 3/20) ∧
    teacache_forward mRaw id storeB 2 (some 0) [1] [91/100] [10] =
      Except.ok ([10], some 0, storeC) ∧
    storeC.get 0 = some ⟨some [0], 0, some [91/100], 1⟩ := by
  have hd1 : step_distance mRaw [1] [1] [23/25] = 2/25 := by
    norm_num [step_distance, mRaw, relative_l1_distance, tensor_mean, tensor_abs,
      tensor_sub, abs_of_pos]
  have hd2 : step_distance mRaw [1] [1] [91/100] = 9/100 := by
    norm_num [step_distance, mRaw, relative_l1_distance, tensor_mean, tensor_abs,
      tensor_sub, abs_of_pos]
  have hlt1 : sessA.accumulated_rel_l1_distance + step_distance mRaw [1] [1] [23/25] <
      mRaw.rel_l1_thresh := by
    rw [hd1]; norm_num [sessA, mRaw]
  have hge2 : ¬ sessB.accumulated_rel_l1_distance + step_distance mRaw [1] [1] [91/100] <
      mRaw.rel_l1_thresh := by
    rw [hd2]; norm_num [sessB, mRaw]
  have hu1 : (⟨none, some (sessA.accumulated_rel_l1_distance +
        step_distance mRaw [1] [1] [23/25]), none,
        some (sessA.skipped_steps + 1)⟩ : SessionUpdate) =
      ⟨none, some (2/25), none, some 1⟩ := by
    rw [hd1]; norm_num [sessA]
  have heq1 : teacache_forward mRaw id storeA 1 (some 0) [1] [23/25] [10] =
      Except.ok (tensor_add [10] [5], some 0, storeB) := by
    have h := teacache_forward_skip mRaw id storeA 1 0 sessA [1] [5] [1] [23/25] [10]
      rfl (by decide) (by decide) rfl rfl rfl hlt1
    rw [hu1] at h
    exact h
  have hu2 : (⟨some (tensor_sub (id [10]) [10]), some 0,
        some (if mRaw.teacache_use_coefficients then [1] else [91/100]), none⟩ :
        SessionUpdate) =
      ⟨some (tensor_sub [10] [10]), some 0, some [91/100], none⟩ := rfl
  have heq2 : teacache_forward mRaw id storeB 2 (some 0) [1] [91/100] [10] =
      Except.ok ([10], some 0, storeC) := by
    have h := teacache_forward_compute mRaw id storeB 2 0 sessB [1] [1] [91/100] [10]
      rfl (by decide) (by decide) rfl rfl hge2
    rw [hu2] at h
    exact h
  have h2 := (accumulation_and_reset mRaw id storeB 2 0 sessB [1] [5] [1] [91/100] [10]
    rfl (by decide) (by decide) rfl rfl rfl [10] (some 0) storeC heq2).2 hge2
  refine ⟨hd1, by norm_num, heq1, rfl, hd2, by norm_num, by norm_num, heq2, ?_⟩
  rw [h2.2]
  norm_num [tensor_sub, sessB, mRaw]

/-- Witness for C4: a skipped step (distance `0.05`, threshold `0.15`) on
session `sessA`: output is input `[10]` plus stored residual `[5]`,
`skipped_steps` goes from 0 to 1, and the accumulated distance `0.05` is
written back. -/
theorem skip_step_effects_witness :
    step_distance mRaw [1] [1] [19/20] = 1/20 ∧
    ((0 : ℚ) + 1/20 < 3/20) ∧
    teacache_forward mRaw id storeA 3 (some 0) [1] [19/20] [10] =
      Except.ok (tensor_add [10] [5], some 0,
        storeA.update 0 ⟨none, some (1/20), none, some 1⟩) ∧
    (storeA.update 0 ⟨none, some (1/20), none, some 1⟩).get 0 =
      some ⟨some [5], 1/20, some [1], 1⟩ := by
  have hd : step_distance mRaw [1] [1] [19/20] = 1/20 := by
    norm_num [step_distance, mRaw, relative_l1_distance, tensor_mean, tensor_abs,
      tensor_sub, abs_of_pos]
  have hlt : sessA.accumulated_rel_l1_distance + step_distance mRaw [1] [1] [19/20] <
      mRaw.rel_l1_thresh := by
    rw [hd]; norm_num [sessA, mRaw]
  have heq := teacache_forward_skip mRaw id storeA 3 0 sessA [1] [5] [1] [19/20] [10]
    rfl (by decide) (by decide) rfl rfl rfl hlt
  have h := skip_step_effects mRaw id storeA 3 0 sessA [1] [5] [1] [19/20] [10]
    rfl (by decide) (by decide) rfl rfl rfl hlt _ _ _ heq
  have hu : (⟨none, some (sessA.accumulated_rel_l1_distance +
        step_distance mRaw [1] [1] [19/20]), none,
        some (sessA.skipped_steps + 1)⟩ : SessionUpdate) =
      ⟨none, some (1/20), none, some 1⟩ := by
    rw [hd]; norm_num [sessA]
  have hs : (⟨sessA.previous_residual, sessA.accumulated_rel_l1_distance +
        step_distance mRaw [1] [1] [19/20], sessA.previous_modulated_input,
        sessA.skipped_steps + 1⟩ : TeaCacheSession) =
      ⟨some [5], 1/20, some [1], 1⟩ := by
    rw [hd]; norm_num [sessA]
  have hg := h.2.2.2
  rw [hu] at heq
  rw [hu, hs] at hg
  exact ⟨hd, by norm_num, heq, hg⟩

/-- Witness for C10 on session `sessA` (stored modulation `[1]`, stored
residual `[5]`): a skipped step (distance `0.04`) leaves both cached tensors
exactly as they were, while a computed step (distance `0.5`) stores the fresh
raw-mode snapshot `[1/2]` together with the new residual. -/
theorem snapshot_write_policy_witness :
    ((0 : ℚ) + 1/25 < 3/20) ∧
    (applySessionUpdate ⟨none, some (1/25), none, some 1⟩ sessA).previous_modulated_input =
      sessA.previous_modulated_input ∧
    (applySessionUpdate ⟨none, some (1/25), none, some 1⟩ sessA).previous_residual =
      sessA.previous_residual ∧
    ¬((0 : ℚ) + 1/2 < 3/20) ∧
    (applySessionUpdate ⟨some (tensor_sub [10] [10]), some 0, some [1/2], none⟩
        sessA).previous_modulated_input = some [1/2] ∧
    (applySessionUpdate ⟨some (tensor_sub [10] [10]), some 0, some [1/2], none⟩
        sessA).previous_residual = some (tensor_sub [10] [10]) := by
  have hd : step_distance mRaw [1] [1] [24/25] = 1/25 := by
    norm_num [step_distance, mRaw, relative_l1_distance, tensor_mean, tensor_abs,
      tensor_sub, abs_of_pos]
  have hlt : sessA.accumulated_rel_l1_distance + step_distance mRaw [1] [1] [24/25] <
      mRaw.rel_l1_thresh := by
    rw [hd]; norm_num [sessA, mRaw]
  have heq := teacache_forward_skip mRaw id storeA 4 0 sessA [1] [5] [1] [24/25] [10]
    rfl (by decide) (by decide) rfl rfl rfl hlt
  have h := (snapshot_write_policy mRaw id storeA 4 0 sessA [1] [5] [1] [24/25] [10]
    rfl (by decide) (by decide) rfl rfl rfl _ _ _ heq
    (applySessionUpdate ⟨none, some (sessA.accumulated_rel_l1_distance +
      step_distance mRaw [1] [1] [24/25]), none, some (sessA.skipped_steps + 1)⟩ sessA)
    rfl).1 hlt
  have hu : (⟨none, some (sessA.accumulated_rel_l1_distance +
        step_distance mRaw [1] [1] [24/25]), none,
        some (sessA.skipped_steps + 1)⟩ : SessionUpdate) =
      ⟨none, some (1/25), none, some 1⟩ := by
    rw [hd]; norm_num [sessA]
  rw [hu] at h
  have hd2 : step_distance mRaw [1] [1] [1/2] = 1/2 := by
    norm_num [step_distance, mRaw, relative_l1_distance, tensor_mean, tensor_abs,
      tensor_sub, abs_of_pos]
  have hge : ¬ sessA.accumulated_rel_l1_distance + step_distance mRaw [1] [1] [1/2] <
      mRaw.rel_l1_thresh := by
    rw [hd2]; norm_num [sessA, mRaw]
  have heq2 := teacache_forward_compute mRaw id storeA 4 0 sessA [1] [1] [1/2] [10]
    rfl (by decide) (by decide) rfl rfl hge
  have g := (snapshot_write_policy mRaw id storeA 4 0 sessA [1] [5] [1] [1/2] [10]
    rfl (by decide) (by decide) rfl rfl rfl _ _ _ heq2
    (applySessionUpdate ⟨some (tensor_sub [10] [10]), some 0, some [1/2], none⟩ sessA)
    rfl).2 hge
  exact ⟨by norm_num, h.1, h.2, by norm_num, g.1, g.2⟩

/-- Witness for C9 at the two-sample set `xs = ys = [0, 1]` and the exact
degree-4 interpolant `x` (zero residual, hence least-squares optimal):
`rescale_differences` returns the fitted values at the input points. -/
theorem rescale_differences_fit_witness :
    IsLeastSquaresFit 4 (fitIdentity [0, 1] [0, 1] 4) [0, 1] [0, 1] ∧
    2 ≤ ([0, 1] : List ℚ).length ∧
    rescale_differences fitIdentity [0, 1] [0, 1] = [0, 1] := by
  have hfit : IsLeastSquaresFit 4 (fitIdentity [0, 1] [0, 1] 4) [0, 1] [0, 1] := by
    constructor
    · rfl
    · intro c hc
      have h0 : rss (fitIdentity [0, 1] [0, 1] 4) [0, 1] [0, 1] = 0 := by
        norm_num [rss, fitIdentity, np_polyval]
      rw [h0]
      exact rss_nonneg c [0, 1] [0, 1]
  have h := (rescale_differences_fit fitIdentity [0, 1] [0, 1] hfit).2 (by norm_num)
  refine ⟨hfit, by norm_num, ?_⟩
  rw [h.1]
  norm_num [fitIdentity, np_polyval]
